import Mathlib

/-!
Verification of the asm-lsp core: the startup pipeline in `main`
(database load, target filtering, index construction) and the request
dispatch loop `main_loop` of `src/bin/main.rs`, shallowly embedded.

External effects are made explicit: the outcome of decoding a request's
parameters and of extracting the word under the cursor travel with the
inbound message, and the loop is a pure function from the inbound message
list to the list of responses it sends.
-/

set_option autoImplicit false

namespace AsmLsp

/-- Architecture tag (`Arch` in the asm_lsp crate): the closed enumeration
of supported instruction-set architectures. -/
inductive Arch where
  | X86
  | X86_64
deriving DecidableEq, Repr

/-- Modelled from the spec: the `InstructionForm` record of the asm_lsp
crate is not under src/. One operand-signature variant of an instruction:
an ordered sequence of operand descriptors, the set of assembler dialects
that recognize this exact form, and optional encoding/notes text. -/
structure Form where
  operands : List String
  dialects : List String
  notes : Option String
deriving DecidableEq, Repr

/-- Modelled from the spec: the `Instruction` record of the asm_lsp crate
is not under src/. An architecture-scoped documentation unit: a
case-preserving mnemonic `name`, an architecture tag (set by `main` after
loading), a free-text summary and an ordered sequence of forms. -/
structure Instruction where
  name : String
  arch : Option Arch
  summary : String
  forms : List Form
deriving DecidableEq, Repr

/-- The per-architecture enablement switches of the configuration
(`instruction_sets.x86`, `instruction_sets.x86_64`). -/
structure InstructionSets where
  x86 : Bool
  x86_64 : Bool
deriving DecidableEq, Repr

/-- Modelled from the spec: `TargetConfig` lives in the asm_lsp crate.
Process-wide configuration read once at startup: per-architecture
enablement plus the set of enabled assembler dialect identifiers. -/
structure TargetConfig where
  instruction_sets : InstructionSets
  assemblers : List String
deriving DecidableEq, Repr

/-- Modelled from the spec: `filter_targets` lives in the asm_lsp crate
(`crate::lsp::filter_targets`), not under src/. A pure transformation that
restricts an instruction's forms to those whose dialect set intersects the
enabled-dialect set; it never removes the instruction record itself. -/
def filter_targets (instruction : Instruction) (config : TargetConfig) : Instruction :=
  { instruction with
    forms := instruction.forms.filter
      (fun f => f.dialects.any (fun d => config.assemblers.contains d)) }

/-- The instruction index (`NameToInstructionMap` in the asm_lsp crate):
a mapping keyed by (architecture, mnemonic text). Modelled as an
association list; insertion conses at the front, so the most recent
insertion for a key is found first — last insertion wins, as in a
`HashMap` rebuilt by repeated `insert`. -/
abbrev NameToInstructionMap : Type := List ((Arch × String) × Instruction)

/-- The empty index, `NameToInstructionMap::new()`. -/
def NameToInstructionMap.new : NameToInstructionMap := []

/-- Lowercasing of a mnemonic, character by character (the ASCII case
mapping of `Char.toLower`, matching Rust's `to_lowercase` on the ASCII
mnemonics of the opcode databases). -/
def strToLower (s : String) : String := ⟨s.data.map Char.toLower⟩

/-- Modelled from the spec: `populate_name_to_instruction_map` lives in
the asm_lsp crate, not under src/. For the given architecture it inserts
every instruction of the list under key (architecture, lowercase(name)). -/
def populate_name_to_instruction_map (arch : Arch) (instructions : List Instruction)
    (m : NameToInstructionMap) : NameToInstructionMap :=
  instructions.foldl (fun acc i => ((arch, strToLower i.name), i) :: acc) m

/-- The lookup the loop performs at `names_to_instructions.get(&(arch, &*word))`
(src/bin/main.rs lines 123-126): an exact get on the key, with the word
used as it came from the extractor. -/
def mapGet (m : NameToInstructionMap) (arch : Arch) (word : String) : Option Instruction :=
  (List.find? (fun kv => kv.1 == (arch, word)) m).map (fun kv => kv.2)

/-- The per-architecture instruction list built by `main` for x86
(src/bin/main.rs lines 40-57): when the x86 instruction set is enabled,
load the embedded database (here the parameter `db`, the Loader's output),
tag each instruction with the architecture, filter its forms by the
enabled targets, and drop instructions left with no forms; when disabled,
the database is not loaded at all and the list is empty. -/
def x86_instructions (config : TargetConfig) (db : List Instruction) : List Instruction :=
  if config.instruction_sets.x86 then
    ((db.map (fun i => { i with arch := some Arch.X86 })).map
        (fun i => filter_targets i config)).filter (fun i => !i.forms.isEmpty)
  else []

/-- The per-architecture instruction list built by `main` for x86_64
(src/bin/main.rs lines 59-76), mirroring `x86_instructions`. -/
def x86_64_instructions (config : TargetConfig) (db : List Instruction) : List Instruction :=
  if config.instruction_sets.x86_64 then
    ((db.map (fun i => { i with arch := some Arch.X86_64 })).map
        (fun i => filter_targets i config)).filter (fun i => !i.forms.isEmpty)
  else []

/-- The index construction of `main` (src/bin/main.rs lines 78-84): start
from the empty map, populate with the x86 list, then with the x86_64 list. -/
def build_name_to_instruction_map (config : TargetConfig)
    (db_x86 db_x86_64 : List Instruction) : NameToInstructionMap :=
  populate_name_to_instruction_map Arch.X86_64 (x86_64_instructions config db_x86_64)
    (populate_name_to_instruction_map Arch.X86 (x86_instructions config db_x86)
      NameToInstructionMap.new)

/-- The observable payload of a response the loop sends: the `result`
field's JSON value. `str ""` is `Some(json!(""))`; `hoverMarkdown v` is the
serialized `Hover` whose `MarkupContent` has kind Markdown and value `v`;
`null` is the `()` result of the shutdown acknowledgement. -/
inductive JsonVal where
  | str (s : String)
  | hoverMarkdown (value : String)
  | null
deriving DecidableEq, Repr

/-- An outbound `lsp_server::Response`: id, optional result, optional error. -/
structure Response where
  id : Nat
  result : Option JsonVal
  error : Option String
deriving DecidableEq, Repr

/-- The empty-result response `res` built at src/bin/main.rs lines 110-114:
`result` is explicitly the empty string, `error` is absent. -/
def emptyRes (id : Nat) : Response :=
  { id := id, result := some (JsonVal.str ""), error := none }

/-- A successful hover response (src/bin/main.rs lines 160-167): the
serialized `Hover` with Markdown content `value`. -/
def hoverRes (id : Nat) (value : String) : Response :=
  { id := id, result := some (JsonVal.hoverMarkdown value), error := none }

/-- The acknowledgement `Connection::handle_shutdown` sends for a shutdown
request (external lsp_server behaviour; the spec: shutdown always succeeds). -/
def shutdownAck (id : Nat) : Response :=
  { id := id, result := some JsonVal.null, error := none }

/-- An inbound `lsp_server::Message`, with the outcomes of the external
effects attached. For a request, `hover_decode` records what the external
collaborators would report if the loop treats it as a hover request:
`none` means `cast::<HoverRequest>` fails to decode the parameters;
`some none` means the parameters decode but `get_word_from_file_params`
(asm_lsp crate, reads the document) fails with NotFound;
`some (some w)` means the word `w` is extracted. The field is only
consulted when the method is the hover method. -/
inductive Message where
  | request (id : Nat) (method : String) (hover_decode : Option (Option String))
  | response
  | notification
deriving DecidableEq, Repr

/-- Composition of the hover Markdown content (src/bin/main.rs lines
131-145): the x86 rendering first if present, then the x86_64 rendering,
preceded by a blank line exactly when the x86 match is also present.
`render` stands for the `Display` implementation of `Instruction`
(asm_lsp crate), over which all theorems are universally quantified. -/
def hoverValue (render : Instruction → String) (x86i x86_64i : Option Instruction) : String :=
  let v1 := match x86i with
    | some i => render i
    | none => ""
  let v2 := match x86_64i with
    | some j => (if x86i.isSome then "\n\n" else "") ++ render j
    | none => ""
  v1 ++ v2

/-- The responses the loop sends while handling one non-shutdown message
(src/bin/main.rs lines 107-187). A hover request with undecodable
parameters, a request of any other method, and inbound responses and
notifications all send nothing; a decoded hover request sends exactly one
response: the hover content when at least one architecture matches the
word, the empty-result response otherwise or when extraction failed. -/
def dispatch (ntim : NameToInstructionMap) (render : Instruction → String) :
    Message → List Response
  | Message.request id method hover_decode =>
    if method = "textDocument/hover" then
      match hover_decode with
      | none => []
      | some none => [emptyRes id]
      | some (some word) =>
        let x86i := mapGet ntim Arch.X86 word
        let x86_64i := mapGet ntim Arch.X86_64 word
        if x86i.isSome || x86_64i.isSome then
          [hoverRes id (hoverValue render x86i x86_64i)]
        else
          [emptyRes id]
    else []
  | Message.response => []
  | Message.notification => []

/-- The outcome of `main_loop`: the responses sent, in order, and whether
the loop returned because it processed a shutdown request (`true`) or
because the inbound channel closed (`false`). Either way the Rust loop
returns `Ok(())`; the embedding is total, so producing a `LoopResult` is
that successful return. -/
structure LoopResult where
  sent : List Response
  viaShutdown : Bool
deriving DecidableEq, Repr

/-- The loop `main_loop` (src/bin/main.rs lines 94-191) over a finite inbound
message list: each message is taken in order; a request is first offered
to `handle_shutdown`, which on the shutdown method sends its
acknowledgement and makes the loop return immediately; every other message
is dispatched and the loop continues; when the list is exhausted (the
channel closed) the loop returns normally. -/
def main_loop (ntim : NameToInstructionMap) (render : Instruction → String) :
    List Message → LoopResult
  | [] => { sent := [], viaShutdown := false }
  | msg :: rest =>
    match msg with
    | Message.request id method hover_decode =>
      if method = "shutdown" then
        { sent := [shutdownAck id], viaShutdown := true }
      else
        let r := main_loop ntim render rest
        { sent := dispatch ntim render (Message.request id method hover_decode) ++ r.sent,
          viaShutdown := r.viaShutdown }
    | Message.response =>
      let r := main_loop ntim render rest
      { sent := dispatch ntim render Message.response ++ r.sent,
        viaShutdown := r.viaShutdown }
    | Message.notification =>
      let r := main_loop ntim render rest
      { sent := dispatch ntim render Message.notification ++ r.sent,
        viaShutdown := r.viaShutdown }

/-- Whether a message is the shutdown request, the one `handle_shutdown`
intercepts. -/
def isShutdown : Message → Bool
  | Message.request _ method _ => method == "shutdown"
  | _ => false

/-! Concrete fixtures used by witnesses and counterexamples. -/

/-- A form accepted by the "gas" dialect. -/
def movForm : Form := { operands := ["r32", "r32"], dialects := ["gas"], notes := none }

/-- The `mov` instruction as the Loader would produce it (no arch tag yet). -/
def movX86 : Instruction := { name := "mov", arch := none, summary := "Move", forms := [movForm] }

/-- Both architectures enabled, "gas" dialect enabled. -/
def cfgAll : TargetConfig :=
  { instruction_sets := { x86 := true, x86_64 := true }, assemblers := ["gas"] }

/-- The index built over a one-instruction database for each architecture. -/
def idxBoth : NameToInstructionMap := build_name_to_instruction_map cfgAll [movX86] [movX86]

/-- The index built when only the x86 database contains `mov`. -/
def idx86only : NameToInstructionMap := build_name_to_instruction_map cfgAll [movX86] []

/-- The index built when only the x86_64 database contains `mov`. -/
def idx64only : NameToInstructionMap := build_name_to_instruction_map cfgAll [] [movX86]

/-- The instruction `mov` as stored for x86 after tagging and filtering. -/
def mov86 : Instruction := { name := "mov", arch := some Arch.X86, summary := "Move", forms := [movForm] }

/-- The instruction `mov` as stored for x86_64 after tagging and filtering. -/
def mov64 : Instruction := { name := "mov", arch := some Arch.X86_64, summary := "Move", forms := [movForm] }

/-- A concrete rendering function standing in for `Display` in witnesses. -/
def rend0 (i : Instruction) : String := i.summary

/-- The entry the populate step inserts for instruction `i` under `arch`. -/
def entryOf (arch : Arch) (i : Instruction) : (Arch × String) × Instruction :=
  ((arch, strToLower i.name), i)

/-- A configuration with both instruction sets enabled. -/
def cfgBoth (assemblers : List String) : TargetConfig :=
  { instruction_sets := { x86 := true, x86_64 := true }, assemblers := assemblers }

/-- The same configuration with `instruction_sets.x86` switched off. -/
def cfgNo86 (assemblers : List String) : TargetConfig :=
  { instruction_sets := { x86 := false, x86_64 := true }, assemblers := assemblers }

/-- The same configuration with `instruction_sets.x86_64` switched off. -/
def cfgNo64 (assemblers : List String) : TargetConfig :=
  { instruction_sets := { x86 := true, x86_64 := false }, assemblers := assemblers }

example : mapGet idxBoth Arch.X86 "mov" = some mov86 := by decide
example : mapGet idxBoth Arch.X86_64 "mov" = some mov64 := by decide
example : mapGet idxBoth Arch.X86 "MOV" = none := by decide
example : mapGet idx86only Arch.X86_64 "mov" = none := by decide
example :
    main_loop idxBoth rend0 [Message.request 1 "textDocument/hover" (some (some "mov"))]
      = { sent := [hoverRes 1 "Move\n\nMove"], viaShutdown := false } := by decide

/-! Helper lemmas about the loop. -/

theorem main_loop_cons_not_shutdown (ntim : NameToInstructionMap)
    (render : Instruction → String) (msg : Message) (rest : List Message)
    (h : isShutdown msg = false) :
    main_loop ntim render (msg :: rest)
      = { sent := dispatch ntim render msg ++ (main_loop ntim render rest).sent,
          viaShutdown := (main_loop ntim render rest).viaShutdown } := by
  cases msg with
  | request id method hover_decode =>
    have hm : ¬ method = "shutdown" := by simpa [isShutdown] using h
    simp [main_loop, hm]
  | response => simp [main_loop]
  | notification => simp [main_loop]

/-- The claim (C1): a hover request whose parameters fail to decode
receives the empty-result response. The code instead only logs the failed
`cast` and sends nothing: on the one-message sequence holding exactly such
a request, the loop sends no response at all, in particular not the
empty-result response. -/
theorem C1_counterexample :
    (main_loop NameToInstructionMap.new rend0
        [Message.request 1 "textDocument/hover" none]).sent = []
    ∧ (main_loop NameToInstructionMap.new rend0
        [Message.request 1 "textDocument/hover" none]).sent ≠ [emptyRes 1] := by
  decide

/-- C1 (amended): a hover request whose parameters fail to decode is only
logged (the `Err` branch of `cast`, src/bin/main.rs lines 181-183): the
loop sends no response for it and behaves as if the message were absent.
The empty-result response is reserved for decoded requests. -/
theorem C1_decode_failure_no_response (ntim : NameToInstructionMap)
    (render : Instruction → String) (id : Nat) (rest : List Message) :
    main_loop ntim render (Message.request id "textDocument/hover" none :: rest)
      = main_loop ntim render rest := by
  simp [main_loop, dispatch]

/-- C2: a decoded hover request whose word extraction fails, and a decoded
hover request whose extracted word matches no indexed instruction in
either architecture, each receive exactly one response, whose `result` is
the explicit empty string and whose `error` is absent. -/
theorem C2_empty_string_response (ntim : NameToInstructionMap)
    (render : Instruction → String) (id : Nat) (w : String) (rest : List Message) :
    ((main_loop ntim render
        (Message.request id "textDocument/hover" (some none) :: rest)).sent
      = emptyRes id :: (main_loop ntim render rest).sent)
    ∧ (mapGet ntim Arch.X86 w = none → mapGet ntim Arch.X86_64 w = none →
        (main_loop ntim render
            (Message.request id "textDocument/hover" (some (some w)) :: rest)).sent
          = emptyRes id :: (main_loop ntim render rest).sent)
    ∧ (emptyRes id).result = some (JsonVal.str "")
    ∧ (emptyRes id).error = none := by
  refine ⟨by simp [main_loop, dispatch], fun h86 h64 => ?_, rfl, rfl⟩
  simp [main_loop, dispatch, h86, h64]

/-- C2 witness: hovering the unknown word "frobnicate" over the empty
index yields exactly one response, the explicit empty string. -/
theorem C2_witness :
    (main_loop NameToInstructionMap.new rend0
        [Message.request 2 "textDocument/hover" (some (some "frobnicate"))]).sent
      = [emptyRes 2] := by
  have h := (C2_empty_string_response NameToInstructionMap.new rend0 2 "frobnicate" []).2.1
    rfl rfl
  simpa [main_loop] using h

/-- C6: once a shutdown request is reached, the loop returns at once: the
messages after it are never dispatched, and the whole run is the run that
ends at the shutdown request. -/
theorem C6_shutdown_terminates (ntim : NameToInstructionMap)
    (render : Instruction → String) (ms1 : List Message) (id : Nat)
    (d : Option (Option String)) (ms2 : List Message) :
    main_loop ntim render (ms1 ++ Message.request id "shutdown" d :: ms2)
      = main_loop ntim render (ms1 ++ [Message.request id "shutdown" d]) := by
  induction ms1 with
  | nil => simp [main_loop]
  | cons m ms ih =>
    cases m with
    | request id' method d' =>
      by_cases h : method = "shutdown"
      · subst h; simp [main_loop]
      · simp only [List.cons_append, main_loop, List.append_eq, if_neg h, ih]
    | response => simp only [List.cons_append, main_loop, List.append_eq, ih]
    | notification => simp only [List.cons_append, main_loop, List.append_eq, ih]

/-- C7: a request whose method is neither shutdown nor hover is only
logged — the loop sends nothing for it and continues unchanged; inbound
notifications and responses are likewise consumed with no response and no
effect on the rest of the run. -/
theorem C7_other_inbound_ignored (ntim : NameToInstructionMap)
    (render : Instruction → String) (id : Nat) (method : String)
    (d : Option (Option String)) (rest : List Message)
    (h1 : method ≠ "shutdown") (h2 : method ≠ "textDocument/hover") :
    (main_loop ntim render (Message.request id method d :: rest)
        = main_loop ntim render rest)
    ∧ (main_loop ntim render (Message.notification :: rest)
        = main_loop ntim render rest)
    ∧ (main_loop ntim render (Message.response :: rest)
        = main_loop ntim render rest) := by
  refine ⟨?_, by simp [main_loop, dispatch], by simp [main_loop, dispatch]⟩
  simp [main_loop, dispatch, h1, h2]

/-- C7 witness: a completion request, a notification and a response, each
in front of an empty tail, all leave the run unchanged. -/
theorem C7_witness :
    (main_loop idxBoth rend0
        [Message.request 7 "textDocument/completion" none] = main_loop idxBoth rend0 [])
    ∧ (main_loop idxBoth rend0 [Message.notification] = main_loop idxBoth rend0 [])
    ∧ (main_loop idxBoth rend0 [Message.response] = main_loop idxBoth rend0 []) :=
  C7_other_inbound_ignored idxBoth rend0 7 "textDocument/completion" none []
    (by decide) (by decide)

/-- C10: a finite inbound sequence with no shutdown request is processed
to the end: every message is dispatched in order, and when the channel
closes the loop returns normally (not through the shutdown exit). -/
theorem C10_runs_to_channel_close (ntim : NameToInstructionMap)
    (render : Instruction → String) (msgs : List Message)
    (h : ∀ m ∈ msgs, isShutdown m = false) :
    main_loop ntim render msgs
      = { sent := (msgs.map (dispatch ntim render)).flatten, viaShutdown := false } := by
  induction msgs with
  | nil => simp [main_loop]
  | cons m ms ih =>
    have hm : isShutdown m = false := h m (by simp)
    have hms : ∀ m' ∈ ms, isShutdown m' = false := fun m' hmem => h m' (by simp [hmem])
    rw [main_loop_cons_not_shutdown ntim render m ms hm, ih hms]
    simp

/-- C10 witness: a notification, an undecodable hover request and a known
hover request, with no shutdown, are all processed and the loop ends at
channel close. -/
theorem C10_witness :
    main_loop idxBoth rend0
        [Message.notification,
         Message.request 4 "textDocument/hover" none,
         Message.request 5 "textDocument/hover" (some (some "mov"))]
      = { sent := [hoverRes 5 "Move\n\nMove"], viaShutdown := false } := by
  have h := C10_runs_to_channel_close idxBoth rend0
    [Message.notification,
     Message.request 4 "textDocument/hover" none,
     Message.request 5 "textDocument/hover" (some (some "mov"))]
    (by decide)
  rw [h]
  decide

/-! Helper lemmas about the index. -/

theorem populate_eq_append (arch : Arch) (l : List Instruction) (m : NameToInstructionMap) :
    populate_name_to_instruction_map arch l m = (l.map (entryOf arch)).reverse ++ m := by
  induction l generalizing m with
  | nil => rfl
  | cons i is ih =>
    show populate_name_to_instruction_map arch is (entryOf arch i :: m) = _
    rw [ih]
    simp

theorem mapGet_append (m1 m2 : NameToInstructionMap) (arch : Arch) (w : String) :
    mapGet (m1 ++ m2) arch w = (mapGet m1 arch w).or (mapGet m2 arch w) := by
  unfold mapGet
  rw [List.find?_append]
  cases List.find? (fun kv => kv.1 == (arch, w)) m1 <;> simp

theorem mem_populate (arch : Arch) (l : List Instruction) (m : NameToInstructionMap)
    (kv : (Arch × String) × Instruction) :
    kv ∈ populate_name_to_instruction_map arch l m ↔
      (∃ i ∈ l, kv = entryOf arch i) ∨ kv ∈ m := by
  rw [populate_eq_append]
  simp [eq_comm]

theorem mem_build (config : TargetConfig) (db86 db64 : List Instruction)
    (kv : (Arch × String) × Instruction) :
    kv ∈ build_name_to_instruction_map config db86 db64 ↔
      (∃ i ∈ x86_instructions config db86, kv = entryOf Arch.X86 i)
      ∨ (∃ i ∈ x86_64_instructions config db64, kv = entryOf Arch.X86_64 i) := by
  unfold build_name_to_instruction_map
  rw [mem_populate, mem_populate]
  simp only [NameToInstructionMap.new, List.not_mem_nil, or_false]
  exact or_comm

theorem mapGet_entries_ne (a arch : Arch) (w : String) (l : List Instruction)
    (h : a ≠ arch) :
    mapGet ((l.map (entryOf a)).reverse) arch w = none := by
  unfold mapGet
  rw [Option.map_eq_none', List.find?_eq_none]
  intro kv hkv
  simp only [List.mem_reverse, List.mem_map] at hkv
  obtain ⟨i, _, rfl⟩ := hkv
  simp [entryOf, beq_iff_eq, h]

theorem mapGet_build (config : TargetConfig) (db86 db64 : List Instruction)
    (arch : Arch) (w : String) :
    mapGet (build_name_to_instruction_map config db86 db64) arch w
      = (mapGet (((x86_64_instructions config db64).map (entryOf Arch.X86_64)).reverse)
          arch w).or
        (mapGet (((x86_instructions config db86).map (entryOf Arch.X86)).reverse)
          arch w) := by
  unfold build_name_to_instruction_map
  rw [populate_eq_append, populate_eq_append]
  simp only [NameToInstructionMap.new, List.append_nil]
  rw [mapGet_append]

theorem mapGet_build_eq_some (config : TargetConfig) (db86 db64 : List Instruction)
    (arch : Arch) (w : String) (i : Instruction)
    (h : mapGet (build_name_to_instruction_map config db86 db64) arch w = some i) :
    w = strToLower i.name
    ∧ (i ∈ x86_instructions config db86 ∨ i ∈ x86_64_instructions config db64) := by
  unfold mapGet at h
  rw [Option.map_eq_some'] at h
  obtain ⟨kv, hfind, hkv2⟩ := h
  have hp := List.find?_some hfind
  have hkey : kv.1 = (arch, w) := by simpa using hp
  have hmem := List.mem_of_find?_eq_some hfind
  rw [mem_build] at hmem
  rcases hmem with ⟨j, hj, rfl⟩ | ⟨j, hj, rfl⟩
  · simp only [entryOf, Prod.mk.injEq] at hkey hkv2
    subst hkv2
    exact ⟨hkey.2.symm, Or.inl hj⟩
  · simp only [entryOf, Prod.mk.injEq] at hkey hkv2
    subst hkv2
    exact ⟨hkey.2.symm, Or.inr hj⟩

theorem mapGet_isSome_of_mem (m : NameToInstructionMap) (arch : Arch) (w : String)
    (kv : (Arch × String) × Instruction) (hmem : kv ∈ m) (hkey : kv.1 = (arch, w)) :
    (mapGet m arch w).isSome = true := by
  have hf : (List.find? (fun kv => kv.1 == (arch, w)) m).isSome = true := by
    rw [List.find?_isSome]
    exact ⟨kv, hmem, by simp [hkey]⟩
  unfold mapGet
  cases hv : List.find? (fun kv => kv.1 == (arch, w)) m with
  | none => rw [hv] at hf; simp at hf
  | some kv' => rfl

theorem mapGet_build_isSome_x86 (config : TargetConfig) (db86 db64 : List Instruction)
    (i : Instruction) (hi : i ∈ x86_instructions config db86) :
    (mapGet (build_name_to_instruction_map config db86 db64)
        Arch.X86 (strToLower i.name)).isSome = true :=
  mapGet_isSome_of_mem _ _ _ (entryOf Arch.X86 i)
    ((mem_build config db86 db64 (entryOf Arch.X86 i)).mpr (Or.inl ⟨i, hi, rfl⟩)) rfl

theorem mapGet_build_isSome_x86_64 (config : TargetConfig) (db86 db64 : List Instruction)
    (i : Instruction) (hi : i ∈ x86_64_instructions config db64) :
    (mapGet (build_name_to_instruction_map config db86 db64)
        Arch.X86_64 (strToLower i.name)).isSome = true :=
  mapGet_isSome_of_mem _ _ _ (entryOf Arch.X86_64 i)
    ((mem_build config db86 db64 (entryOf Arch.X86_64 i)).mpr (Or.inr ⟨i, hi, rfl⟩)) rfl

theorem mem_x86_instructions_forms (config : TargetConfig) (db : List Instruction)
    (i : Instruction) (h : i ∈ x86_instructions config db) : i.forms ≠ [] := by
  unfold x86_instructions at h
  split at h
  · have := (List.mem_filter.mp h).2
    simpa using this
  · simp at h

theorem mem_x86_64_instructions_forms (config : TargetConfig) (db : List Instruction)
    (i : Instruction) (h : i ∈ x86_64_instructions config db) : i.forms ≠ [] := by
  unfold x86_64_instructions at h
  split at h
  · have := (List.mem_filter.mp h).2
    simpa using this
  · simp at h

theorem x86_64_instructions_ignores_x86_flag (a : List String) (db : List Instruction) :
    x86_64_instructions (cfgNo86 a) db = x86_64_instructions (cfgBoth a) db := by
  simp [x86_64_instructions, cfgNo86, cfgBoth, filter_targets]

theorem x86_instructions_ignores_x86_64_flag (a : List String) (db : List Instruction) :
    x86_instructions (cfgNo64 a) db = x86_instructions (cfgBoth a) db := by
  simp [x86_instructions, cfgNo64, cfgBoth, filter_targets]

/-! Claims about the index. -/

/-- The claim (C4): lookup is case-insensitive, `lookup(w) = lookup(lowercase(w))`
for every word. On the index holding `mov` for x86, looking up "MOV"
differs from looking up its lowercase "mov": the code passes the extracted
word to the map unchanged while the keys are lowercased. -/
theorem C4_counterexample :
    mapGet idxBoth Arch.X86 "MOV" ≠ mapGet idxBoth Arch.X86 (strToLower "MOV") := by
  decide

/-- C4 (amended): lookup is an exact, case-sensitive match of the raw
extracted word against the lowercased mnemonic keys: whenever a lookup in
the built index returns an instruction, the queried word is exactly the
lowercase of that instruction's mnemonic — any other case variant of the
mnemonic, including the mnemonic's own original spelling when it is not
all-lowercase, returns no match. -/
theorem C4_lookup_exact_lowercase (config : TargetConfig) (db86 db64 : List Instruction)
    (arch : Arch) (w : String) (i : Instruction)
    (h : mapGet (build_name_to_instruction_map config db86 db64) arch w = some i) :
    w = strToLower i.name :=
  (mapGet_build_eq_some config db86 db64 arch w i h).1

/-- C4 witness: on the concrete index, looking up "mov" returns the x86
`mov`, whose lowercased mnemonic "mov" is the queried word. -/
theorem C4_witness : "mov" = strToLower mov86.name :=
  C4_lookup_exact_lowercase cfgAll [movX86] [movX86] Arch.X86 "mov" mov86 (by decide)

/-- C5: every entry stored in the built index carries an instruction with
at least one form — an instruction whose forms were all filtered away is
dropped by the `.filter(!forms.is_empty())` step before indexing, for every
configuration and every pair of input databases. -/
theorem C5_indexed_instruction_has_form (config : TargetConfig)
    (db86 db64 : List Instruction) (kv : (Arch × String) × Instruction)
    (h : kv ∈ build_name_to_instruction_map config db86 db64) :
    kv.2.forms ≠ [] := by
  rw [mem_build] at h
  rcases h with ⟨i, hi, rfl⟩ | ⟨i, hi, rfl⟩
  · simpa [entryOf] using mem_x86_instructions_forms config db86 i hi
  · simpa [entryOf] using mem_x86_64_instructions_forms config db64 i hi

/-- C5 witness: the stored x86 entry for `mov` has a non-empty form list. -/
theorem C5_witness : (((Arch.X86, "mov"), mov86) : (Arch × String) × Instruction).2.forms ≠ [] :=
  C5_indexed_instruction_has_form cfgAll [movX86] [movX86] ((Arch.X86, "mov"), mov86)
    (by decide)

/-- C8: a mnemonic surviving filtering in both enabled architectures
yields two independent entries (one per architecture key); switching off
`instruction_sets.x86` leaves the x86 side of the index empty (its
database is never loaded) while the x86_64 lookup for the same mnemonic is
unchanged, and symmetrically for `instruction_sets.x86_64`. -/
theorem C8_independent_per_arch_entries (assemblers : List String)
    (db86 db64 : List Instruction) (w : String) (i86 i64 : Instruction)
    (h86 : i86 ∈ x86_instructions (cfgBoth assemblers) db86)
    (hn86 : strToLower i86.name = w)
    (h64 : i64 ∈ x86_64_instructions (cfgBoth assemblers) db64)
    (hn64 : strToLower i64.name = w) :
    ((mapGet (build_name_to_instruction_map (cfgBoth assemblers) db86 db64)
        Arch.X86 w).isSome = true)
    ∧ ((mapGet (build_name_to_instruction_map (cfgBoth assemblers) db86 db64)
        Arch.X86_64 w).isSome = true)
    ∧ (mapGet (build_name_to_instruction_map (cfgNo86 assemblers) db86 db64)
        Arch.X86 w = none)
    ∧ (mapGet (build_name_to_instruction_map (cfgNo86 assemblers) db86 db64)
        Arch.X86_64 w
      = mapGet (build_name_to_instruction_map (cfgBoth assemblers) db86 db64)
          Arch.X86_64 w)
    ∧ (mapGet (build_name_to_instruction_map (cfgNo64 assemblers) db86 db64)
        Arch.X86_64 w = none)
    ∧ (mapGet (build_name_to_instruction_map (cfgNo64 assemblers) db86 db64)
        Arch.X86 w
      = mapGet (build_name_to_instruction_map (cfgBoth assemblers) db86 db64)
          Arch.X86 w) := by
  subst hn86
  refine ⟨mapGet_build_isSome_x86 (cfgBoth assemblers) db86 db64 i86 h86,
    ?_, ?_, ?_, ?_, ?_⟩
  · rw [← hn64]
    exact mapGet_build_isSome_x86_64 (cfgBoth assemblers) db86 db64 i64 h64
  · have hil : x86_instructions (cfgNo86 assemblers) db86 = [] := rfl
    rw [mapGet_build, hil,
      mapGet_entries_ne Arch.X86_64 Arch.X86 _ _ (by decide), Option.none_or]
    rfl
  · have hil : x86_instructions (cfgNo86 assemblers) db86 = [] := rfl
    rw [mapGet_build, mapGet_build, hil, x86_64_instructions_ignores_x86_flag,
      mapGet_entries_ne Arch.X86 Arch.X86_64 _ _ (by decide),
      mapGet_entries_ne Arch.X86 Arch.X86_64 _
        (x86_instructions (cfgBoth assemblers) db86) (by decide)]
  · have hil : x86_64_instructions (cfgNo64 assemblers) db64 = [] := rfl
    rw [mapGet_build, hil,
      mapGet_entries_ne Arch.X86 Arch.X86_64 _ _ (by decide), Option.or_none]
    rfl
  · have hil : x86_64_instructions (cfgNo64 assemblers) db64 = [] := rfl
    rw [mapGet_build, mapGet_build, hil, x86_instructions_ignores_x86_64_flag,
      mapGet_entries_ne Arch.X86_64 Arch.X86 _ _ (by decide),
      mapGet_entries_ne Arch.X86_64 Arch.X86 _
        (x86_64_instructions (cfgBoth assemblers) db64) (by decide)]

/-- C8 witness: with `mov` in both one-instruction databases and the "gas"
dialect enabled, both entries exist; disabling either architecture removes
exactly its own entry and leaves the other architecture's lookup unchanged. -/
theorem C8_witness :
    ((mapGet (build_name_to_instruction_map (cfgBoth ["gas"]) [movX86] [movX86])
        Arch.X86 "mov").isSome = true)
    ∧ ((mapGet (build_name_to_instruction_map (cfgBoth ["gas"]) [movX86] [movX86])
        Arch.X86_64 "mov").isSome = true)
    ∧ (mapGet (build_name_to_instruction_map (cfgNo86 ["gas"]) [movX86] [movX86])
        Arch.X86 "mov" = none)
    ∧ (mapGet (build_name_to_instruction_map (cfgNo86 ["gas"]) [movX86] [movX86])
        Arch.X86_64 "mov"
      = mapGet (build_name_to_instruction_map (cfgBoth ["gas"]) [movX86] [movX86])
          Arch.X86_64 "mov")
    ∧ (mapGet (build_name_to_instruction_map (cfgNo64 ["gas"]) [movX86] [movX86])
        Arch.X86_64 "mov" = none)
    ∧ (mapGet (build_name_to_instruction_map (cfgNo64 ["gas"]) [movX86] [movX86])
        Arch.X86 "mov"
      = mapGet (build_name_to_instruction_map (cfgBoth ["gas"]) [movX86] [movX86])
          Arch.X86 "mov") :=
  C8_independent_per_arch_entries ["gas"] [movX86] [movX86] "mov" mov86 mov64
    (by decide) (by decide) (by decide) (by decide)

/-! Claims about hover content composition. -/

/-- C3: when the extracted word is indexed under both architectures, the
single hover response carries Markdown made of the x86 rendering, a blank
line, then the x86_64 rendering — x86 always first. -/
theorem C3_both_arch_hover (ntim : NameToInstructionMap) (render : Instruction → String)
    (id : Nat) (w : String) (rest : List Message) (i j : Instruction)
    (h86 : mapGet ntim Arch.X86 w = some i)
    (h64 : mapGet ntim Arch.X86_64 w = some j) :
    (main_loop ntim render
        (Message.request id "textDocument/hover" (some (some w)) :: rest)).sent
      = hoverRes id (render i ++ "\n\n" ++ render j)
          :: (main_loop ntim render rest).sent := by
  simp [main_loop, dispatch, h86, h64, hoverValue, String.append_assoc]

/-- C3 witness: hovering "mov" over the two-architecture index yields one
response whose content is the x86 rendering, a blank line, then the x86_64
rendering. -/
theorem C3_witness :
    (main_loop idxBoth rend0
        [Message.request 3 "textDocument/hover" (some (some "mov"))]).sent
      = [hoverRes 3 (rend0 mov86 ++ "\n\n" ++ rend0 mov64)] := by
  have h := C3_both_arch_hover idxBoth rend0 3 "mov" [] mov86 mov64 (by decide) (by decide)
  simpa [main_loop] using h

/-- C9: when the extracted word matches exactly one architecture, the
response content is exactly that architecture's rendering, with no
separator and no leading or trailing blank line; the "\n\n" separator
appears only when the x86 match accompanies the x86_64 match. -/
theorem C9_single_arch_hover (ntim : NameToInstructionMap) (render : Instruction → String)
    (id : Nat) (w : String) (rest : List Message) (i : Instruction) :
    (mapGet ntim Arch.X86 w = some i → mapGet ntim Arch.X86_64 w = none →
      (main_loop ntim render
          (Message.request id "textDocument/hover" (some (some w)) :: rest)).sent
        = hoverRes id (render i) :: (main_loop ntim render rest).sent)
    ∧ (mapGet ntim Arch.X86 w = none → mapGet ntim Arch.X86_64 w = some i →
      (main_loop ntim render
          (Message.request id "textDocument/hover" (some (some w)) :: rest)).sent
        = hoverRes id (render i) :: (main_loop ntim render rest).sent) := by
  constructor <;> intro h86 h64 <;>
    simp [main_loop, dispatch, h86, h64, hoverValue, String.append_empty,
      String.empty_append]

/-- C9 witness: hovering "mov" over an index that knows it only for x86
(resp. only for x86_64) yields exactly that one rendering, with no blank
line anywhere. -/
theorem C9_witness :
    ((main_loop idx86only rend0
        [Message.request 9 "textDocument/hover" (some (some "mov"))]).sent
      = [hoverRes 9 (rend0 mov86)])
    ∧ ((main_loop idx64only rend0
        [Message.request 9 "textDocument/hover" (some (some "mov"))]).sent
      = [hoverRes 9 (rend0 mov64)]) := by
  constructor
  · have h := (C9_single_arch_hover idx86only rend0 9 "mov" [] mov86).1
      (by decide) (by decide)
    simpa [main_loop] using h
  · have h := (C9_single_arch_hover idx64only rend0 9 "mov" [] mov64).2
      (by decide) (by decide)
    simpa [main_loop] using h

end AsmLsp
